import Mathlib

/-!
Verification of the RenderTarget component of habitat-sim
(`src/esp/gfx/RenderTarget.h`).

The repository ships only the interface header; the behaviour of each
operation is therefore modelled from the specification (`spec.md`), which
fixes the data model (framebuffer with color / depth / object-id /
triangle-id attachments of a fixed size), the render-session protocol
(`renderEnter` / `renderExit`), the host readback path with per-view
pixel-format contracts, the optional device (CUDA) readback path, the
depth-unprojection transform `d_linear = 1 / (a * d_raw + b)` with its
GPU-shader and CPU-fallback variants, and the presentation blit.

Machine floating point is modelled by exact rationals; depth values are
elements of `ℚ`.  Buffers are row-major lists of length `width * height`.
-/

namespace HabitatGfx

/-- Modelled from the spec: the host-view pixel formats named by the header
(`RGBA8`, `R32F`, `R32UI`, `R32I`, `R16UI`) together with two formats that
violate the channel contracts (`rg32F`: multi-channel float; `r8UI`:
single-channel integer too narrow for a 16-bit identifier). -/
inductive PixelFormat where
  | rgba8Unorm
  | r32F
  | rg32F
  | r32UI
  | r32I
  | r16UI
  | r8UI
deriving DecidableEq

/-- Number of channels of a pixel format. -/
def PixelFormat.channels : PixelFormat → Nat
  | .rgba8Unorm => 4
  | .rg32F => 2
  | _ => 1

/-- Whether the format's channels are floating point. -/
def PixelFormat.isFloatFormat : PixelFormat → Bool
  | .r32F => true
  | .rg32F => true
  | _ => false

/-- Bit width of one channel of the format. -/
def PixelFormat.channelBits : PixelFormat → Nat
  | .rgba8Unorm => 8
  | .r32F => 32
  | .rg32F => 32
  | .r32UI => 32
  | .r32I => 32
  | .r16UI => 16
  | .r8UI => 8

/-- An RGBA pixel: four 8-bit channels, each a natural number below 256. -/
abbrev Rgba := Nat × Nat × Nat × Nat

/-- Modelled from the spec: a caller-owned pre-allocated host image view
(`Magnum::MutableImageView2D`), characterised by its dimensions and pixel
format. -/
structure ImageView where
  w : Nat
  h : Nat
  format : PixelFormat
deriving DecidableEq

/-- Modelled from the spec: the state of a `RenderTarget` — fixed size,
depth-unprojection scalars `(a, b)`, the capability flags for the GPU
depth-unprojection shader and the triangle-id channel, the four
attachments (row-major buffers), and whether the framebuffer is currently
bound by a `renderEnter` that has not been matched by `renderExit`. -/
structure RenderTarget where
  width : Nat
  height : Nat
  unprojA : ℚ
  unprojB : ℚ
  hasDepthShader : Bool
  triangleIdEnabled : Bool
  colorBuf : List Rgba
  depthBuf : List ℚ
  objectIdBuf : List Nat
  triangleIdBuf : List Nat
  bound : Bool
deriving DecidableEq

/-- Number of pixels of the framebuffer. -/
def pixelCount (rt : RenderTarget) : Nat := rt.width * rt.height

/-- `framebufferSize`: the fixed WxH size; pure query. -/
def framebufferSize (rt : RenderTarget) : Nat × Nat := (rt.width, rt.height)

/-- Well-formedness: every attachment has `width * height` pixels, and the
id attachments hold 16-bit identifiers. -/
def WF (rt : RenderTarget) : Prop :=
  rt.colorBuf.length = pixelCount rt ∧
  rt.depthBuf.length = pixelCount rt ∧
  rt.objectIdBuf.length = pixelCount rt ∧
  rt.triangleIdBuf.length = pixelCount rt ∧
  (∀ v ∈ rt.objectIdBuf, v < 2 ^ 16) ∧
  (∀ v ∈ rt.triangleIdBuf, v < 2 ^ 16)

instance (rt : RenderTarget) : Decidable (WF rt) := by
  unfold WF; infer_instance

/-- Modelled from the spec: the error taxonomy — configuration errors and
caller contract violations, all fail-fast. -/
inductive RTError where
  | viewSizeMismatch
  | viewFormatMismatch
  | missingDepthShader
  | missingTriangleSensor
  | exitWithoutEnter
deriving DecidableEq

/-- The clear value of the color attachment: transparent black. -/
def clearColor : Rgba := (0, 0, 0, 0)

/-- The clear value of the depth attachment: the far-plane sentinel. -/
def depthClearValue : ℚ := 1

/-- The sentinel id meaning "no object was drawn at this pixel". -/
def noObjectSentinel : Nat := 0

/-- Modelled from the spec: `renderEnter` binds this object's framebuffer
and clears all attachments to their defined empty values (color:
transparent/zero; depth: far-plane sentinel; ids: the no-object
sentinel). -/
def renderEnter (rt : RenderTarget) : RenderTarget :=
  { rt with
    bound := true
    colorBuf := List.replicate (pixelCount rt) clearColor
    depthBuf := List.replicate (pixelCount rt) depthClearValue
    objectIdBuf := List.replicate (pixelCount rt) noObjectSentinel
    triangleIdBuf := List.replicate (pixelCount rt) noObjectSentinel }

/-- Modelled from the spec: `renderExit` restores the previously bound
render destination; calling it without a matching `renderEnter` is a
programmer error and fails fast. -/
def renderExit (rt : RenderTarget) : Except RTError RenderTarget :=
  if rt.bound then .ok { rt with bound := false } else .error .exitWithoutEnter

/-- The view's dimensions match the framebuffer size. -/
def viewSizeOk (rt : RenderTarget) (view : ImageView) : Bool :=
  view.w == rt.width && view.h == rt.height

/-- The view format is acceptable for `readFrameRgba`: four 8-bit
channels. -/
def rgbaFormatOk (f : PixelFormat) : Bool := f == .rgba8Unorm

/-- The view format is acceptable for `readFrameDepth`: a single 32-bit
float channel. -/
def depthFormatOk (f : PixelFormat) : Bool := f == .r32F

/-- The view format is acceptable for the id reads: a single-channel
integer format whose value range covers `uint16`. -/
def idFormatOk (f : PixelFormat) : Bool :=
  f.channels == 1 && !f.isFloatFormat && 16 ≤ f.channelBits

/-- The depth-unprojection transform fixed by the spec:
`d_linear = 1 / (a * d_raw + b)`. -/
def unproject (a b d : ℚ) : ℚ := 1 / (a * d + b)

/-- Modelled from the spec: the CPU fallback — raw depth is copied to host
memory first and the `(a, b)` transform is applied per-pixel on the host
(an explicit per-pixel loop). -/
def cpuUnprojectDepth (a b : ℚ) : List ℚ → List ℚ
  | [] => []
  | d :: ds => unproject a b d :: cpuUnprojectDepth a b ds

/-- Modelled from the spec: the GPU path — one full-screen pass consuming
the raw depth attachment and writing linear depth to a scratch
attachment. -/
def gpuUnprojectPass (a b : ℚ) (raw : List ℚ) : List ℚ :=
  raw.map (unproject a b)

/-- Copying the scratch attachment out to the destination. -/
def copyScratchOut (scratch : List ℚ) : List ℚ := scratch

/-- Widening a stored identifier into the view's integer format: the value
is taken modulo the format's channel width. -/
def widenId (f : PixelFormat) (v : Nat) : Nat := v % 2 ^ f.channelBits

/-- Modelled from the spec: `readFrameRgba` — rejects a view of the wrong
dimensions or pixel format before any copy, otherwise copies the color
attachment verbatim. -/
def readFrameRgba (rt : RenderTarget) (view : ImageView) :
    Except RTError (List Rgba) :=
  if viewSizeOk rt view then
    if rgbaFormatOk view.format then .ok rt.colorBuf
    else .error .viewFormatMismatch
  else .error .viewSizeMismatch

/-- Modelled from the spec: `readFrameDepth` — after validating the view,
unprojects on the GPU when a depth shader was supplied at construction
(pass into a scratch attachment, then copy out), otherwise copies the raw
depth to the host and applies the transform per-pixel there. -/
def readFrameDepth (rt : RenderTarget) (view : ImageView) :
    Except RTError (List ℚ) :=
  if viewSizeOk rt view then
    if depthFormatOk view.format then
      if rt.hasDepthShader then
        .ok (copyScratchOut (gpuUnprojectPass rt.unprojA rt.unprojB rt.depthBuf))
      else
        .ok (cpuUnprojectDepth rt.unprojA rt.unprojB rt.depthBuf)
    else .error .viewFormatMismatch
  else .error .viewSizeMismatch

/-- Modelled from the spec: `readFrameObjectId` — after validating the
view, copies the object-id attachment, widening each identifier into the
view's integer format. -/
def readFrameObjectId (rt : RenderTarget) (view : ImageView) :
    Except RTError (List Nat) :=
  if viewSizeOk rt view then
    if idFormatOk view.format then
      .ok (rt.objectIdBuf.map (widenId view.format))
    else .error .viewFormatMismatch
  else .error .viewSizeMismatch

/-- Modelled from the spec: `readFrameTriangleId` — identical contract to
the object-id read; fails with a configuration error when the triangle-id
attachment was never created. -/
def readFrameTriangleId (rt : RenderTarget) (view : ImageView) :
    Except RTError (List Nat) :=
  if viewSizeOk rt view then
    if idFormatOk view.format then
      if rt.triangleIdEnabled then
        .ok (rt.triangleIdBuf.map (widenId view.format))
      else .error .missingTriangleSensor
    else .error .viewFormatMismatch
  else .error .viewSizeMismatch

/-- Dense byte packing of an RGBA buffer: four bytes per pixel, in order. -/
def rgbaBytes : List Rgba → List Nat
  | [] => []
  | (r, g, b, a) :: ps => r :: g :: b :: a :: rgbaBytes ps

/-- Interpreting a stored value as a 32-bit signed integer (two's
complement). -/
def toInt32 (v : Nat) : Int :=
  let r : Nat := v % 2 ^ 32
  if r < 2 ^ 31 then (r : Int) else (r : Int) - 2 ^ 32

/-- Modelled from the spec: `readFrameRgbaGPU` — copies the color
attachment into caller-owned device memory as a densely packed array of
bytes, four per pixel. -/
def readFrameRgbaGPU (rt : RenderTarget) : List Nat :=
  rgbaBytes rt.colorBuf

/-- Modelled from the spec: `readFrameDepthGPU` — requires the GPU
depth-unprojection shader supplied at construction; without one this is a
configuration error (no host roundtrip exists at which to apply the CPU
transform).  With the shader, delivers the unprojected scratch attachment
as a densely packed array of 32-bit floats. -/
def readFrameDepthGPU (rt : RenderTarget) : Except RTError (List ℚ) :=
  if rt.hasDepthShader then
    .ok (copyScratchOut (gpuUnprojectPass rt.unprojA rt.unprojB rt.depthBuf))
  else .error .missingDepthShader

/-- Modelled from the spec: `readFrameObjectIdGPU` — copies the object-id
attachment into device memory as a densely packed array of 32-bit signed
integers, one per pixel, widening each 16-bit identifier. -/
def readFrameObjectIdGPU (rt : RenderTarget) : List Int :=
  rt.objectIdBuf.map toInt32

/-- Modelled from the spec: `readFrameTriangleIdGPU` — as the object-id
device read, available only when the triangle-id channel exists. -/
def readFrameTriangleIdGPU (rt : RenderTarget) : Except RTError (List Int) :=
  if rt.triangleIdEnabled then .ok (rt.triangleIdBuf.map toInt32)
  else .error .missingTriangleSensor

/-- A rendering context: the render target together with the default
presentation framebuffer (window surface / canvas). -/
structure GfxContext where
  rt : RenderTarget
  defaultFb : List Rgba
deriving DecidableEq

/-- Modelled from the spec: `blitRgbaToDefault` — copies the color
attachment into the currently active presentation target; side effect
only, the internal attachments are untouched. -/
def blitRgbaToDefault (s : GfxContext) : GfxContext :=
  { s with defaultFb := s.rt.colorBuf }

/-- Modelled from the spec: a draw pass writing object id `n` (truncated
to the attachment's 16-bit width) at every pixel of `region`, leaving all
other pixels of the object-id attachment unchanged. -/
def drawObjectId (rt : RenderTarget) (n : Nat) (region : Nat → Bool) :
    RenderTarget :=
  { rt with
    objectIdBuf :=
      (List.range (pixelCount rt)).map fun i =>
        if region i then n % 2 ^ 16
        else rt.objectIdBuf.getD i noObjectSentinel }

/-- Canonical RGBA host view for a target. -/
def rgbaView (rt : RenderTarget) : ImageView :=
  ⟨rt.width, rt.height, .rgba8Unorm⟩

/-- Canonical depth host view for a target. -/
def depthView (rt : RenderTarget) : ImageView :=
  ⟨rt.width, rt.height, .r32F⟩

/-- Canonical id host view for a target. -/
def idView (rt : RenderTarget) : ImageView :=
  ⟨rt.width, rt.height, .r32UI⟩

/-- A concrete well-formed 1x2 render target used to instantiate the
theorems on concrete inputs. -/
def rt0 : RenderTarget :=
  { width := 1, height := 2, unprojA := 1, unprojB := 1,
    hasDepthShader := false, triangleIdEnabled := false,
    colorBuf := [(1, 2, 3, 4), (0, 0, 0, 0)], depthBuf := [0, 1],
    objectIdBuf := [7, 0], triangleIdBuf := [3, 0], bound := false }

/-- The host per-pixel loop computes the same buffer as a map of the
transform. -/
theorem cpuUnprojectDepth_eq_map (a b : ℚ) (ds : List ℚ) :
    cpuUnprojectDepth a b ds = ds.map (unproject a b) := by
  induction ds with
  | nil => rfl
  | cons d ds ih => simp [cpuUnprojectDepth, ih]

/-- An id-compatible format is at least 16 bits wide. -/
theorem idFormatOk_bits {f : PixelFormat} (h : idFormatOk f = true) :
    16 ≤ f.channelBits := by
  cases f <;> simp_all [idFormatOk, PixelFormat.channels,
    PixelFormat.isFloatFormat, PixelFormat.channelBits]

/-- Widening does not change an identifier that fits in 16 bits, for any
id-compatible view format. -/
theorem widenId_of_lt {f : PixelFormat} {v : Nat} (hf : idFormatOk f = true)
    (hv : v < 2 ^ 16) : widenId f v = v := by
  have h16 : (2 : Nat) ^ 16 ≤ 2 ^ f.channelBits :=
    Nat.pow_le_pow_right (by norm_num) (idFormatOk_bits hf)
  exact Nat.mod_eq_of_lt (lt_of_lt_of_le hv h16)

/-- A 16-bit value reads back from a 32-bit signed slot unchanged. -/
theorem toInt32_of_lt {v : Nat} (hv : v < 2 ^ 16) : toInt32 v = (v : Int) := by
  have h32 : v % 2 ^ 32 = v := Nat.mod_eq_of_lt (lt_of_lt_of_le hv (by norm_num))
  have h31 : v < 2147483648 := lt_of_lt_of_le hv (by norm_num)
  simp only [toInt32, h32]
  simp [h31]

/-- Claim C1: for every depth-unprojection pair `(a, b)` and every raw
depth sample in `[0, 1]`, `readFrameDepth` produces the same linear depth
whether the GPU depth-unprojection shader path or the CPU fallback path is
used.  In this exact-arithmetic model the two paths agree exactly, hence
within any floating-point tolerance. -/
theorem readFrameDepth_gpu_cpu_agree (rt : RenderTarget) (view : ImageView)
    (hrange : ∀ d ∈ rt.depthBuf, 0 ≤ d ∧ d ≤ 1) :
    readFrameDepth { rt with hasDepthShader := true } view =
      readFrameDepth { rt with hasDepthShader := false } view := by
  simp [readFrameDepth, viewSizeOk, copyScratchOut, gpuUnprojectPass,
    cpuUnprojectDepth_eq_map]

/-- Claim C1 witness: the two depth paths coincide on a concrete 1x2
target with `(a, b) = (1/2, 1/4)` and raw samples `0` and `1`. -/
theorem readFrameDepth_gpu_cpu_agree_witness :
    readFrameDepth
        { width := 1, height := 2, unprojA := 1/2, unprojB := 1/4,
          hasDepthShader := true, triangleIdEnabled := false,
          colorBuf := [(0,0,0,0), (0,0,0,0)], depthBuf := [0, 1],
          objectIdBuf := [0, 0], triangleIdBuf := [0, 0], bound := false } ⟨1, 2, .r32F⟩ =
      readFrameDepth
        { width := 1, height := 2, unprojA := 1/2, unprojB := 1/4,
          hasDepthShader := false, triangleIdEnabled := false,
          colorBuf := [(0,0,0,0), (0,0,0,0)], depthBuf := [0, 1],
          objectIdBuf := [0, 0], triangleIdBuf := [0, 0], bound := false } ⟨1, 2, .r32F⟩ :=
  readFrameDepth_gpu_cpu_agree
    { width := 1, height := 2, unprojA := 1/2, unprojB := 1/4,
      hasDepthShader := true, triangleIdEnabled := false,
      colorBuf := [(0,0,0,0), (0,0,0,0)], depthBuf := [0, 1],
      objectIdBuf := [0, 0], triangleIdBuf := [0, 0], bound := false }
    ⟨1, 2, .r32F⟩ (by decide)

/-- Claim C3: calling `readFrameDepthGPU` on a target constructed without
a GPU depth-unprojection shader is a configuration error that fails fast;
no CPU-fallback result is ever produced on the device path. -/
theorem readFrameDepthGPU_requires_shader (rt : RenderTarget)
    (h : rt.hasDepthShader = false) :
    readFrameDepthGPU rt = .error .missingDepthShader ∧
      ∀ out, readFrameDepthGPU rt ≠ .ok out := by
  refine ⟨by simp [readFrameDepthGPU, h], ?_⟩
  intro out hout
  simp [readFrameDepthGPU, h] at hout

/-- Claim C3 witness: the device depth read fails on a concrete
shader-less target. -/
theorem readFrameDepthGPU_requires_shader_witness :
    readFrameDepthGPU
        { width := 1, height := 1, unprojA := 1, unprojB := 1,
          hasDepthShader := false, triangleIdEnabled := false,
          colorBuf := [(0,0,0,0)], depthBuf := [0], objectIdBuf := [0],
          triangleIdBuf := [0], bound := false } = .error .missingDepthShader :=
  (readFrameDepthGPU_requires_shader
    { width := 1, height := 1, unprojA := 1, unprojB := 1,
      hasDepthShader := false, triangleIdEnabled := false,
      colorBuf := [(0,0,0,0)], depthBuf := [0], objectIdBuf := [0],
      triangleIdBuf := [0], bound := false } rfl).1

/-- Claim C6: `blitRgbaToDefault` only writes the presentation target; the
render target's internal attachments are unchanged, so a subsequent
`readFrameRgba` (before the next `renderEnter`) returns exactly what it
returned before the blit. -/
theorem blitRgbaToDefault_preserves_attachments (s : GfxContext)
    (view : ImageView) :
    (blitRgbaToDefault s).rt = s.rt ∧
      readFrameRgba (blitRgbaToDefault s).rt view = readFrameRgba s.rt view :=
  ⟨rfl, rfl⟩

/-- Claim C8: `renderExit` without a matching prior `renderEnter` fails
fast as a programmer error rather than silently no-opping. -/
theorem renderExit_without_enter_fails (rt : RenderTarget)
    (h : rt.bound = false) :
    renderExit rt = .error .exitWithoutEnter ∧
      ∀ out, renderExit rt ≠ .ok out := by
  refine ⟨by simp [renderExit, h], ?_⟩
  intro out hout
  simp [renderExit, h] at hout

/-- Claim C8 witness: `renderExit` fails on a concrete never-entered
target. -/
theorem renderExit_without_enter_fails_witness :
    renderExit
        { width := 1, height := 1, unprojA := 1, unprojB := 1,
          hasDepthShader := false, triangleIdEnabled := false,
          colorBuf := [(0,0,0,0)], depthBuf := [0], objectIdBuf := [0],
          triangleIdBuf := [0], bound := false } = .error .exitWithoutEnter :=
  (renderExit_without_enter_fails
    { width := 1, height := 1, unprojA := 1, unprojB := 1,
      hasDepthShader := false, triangleIdEnabled := false,
      colorBuf := [(0,0,0,0)], depthBuf := [0], objectIdBuf := [0],
      triangleIdBuf := [0], bound := false } rfl).1

/-- Reading a replicated buffer with the replicated value as the default
always yields that value. -/
theorem getD_replicate {α : Type} (k i : Nat) (a : α) :
    (List.replicate k a).getD i a = a := by
  simp only [List.getD_eq_getElem?_getD, List.getElem?_replicate]
  split <;> rfl

/-- Dense RGBA byte packing produces four bytes per pixel. -/
theorem rgbaBytes_length (ps : List Rgba) :
    (rgbaBytes ps).length = ps.length * 4 := by
  induction ps with
  | nil => rfl
  | cons p ps ih =>
    obtain ⟨r, g, b, a⟩ := p
    simp [rgbaBytes, ih]
    omega

/-- Claim C4: `renderEnter` binds the framebuffer and clears every
attachment to its empty value (color: zero; depth: far-plane sentinel;
ids: the no-object sentinel); consequently an enter/exit pass issuing no
draw calls followed by `readFrameRgba` yields the all-zero buffer of
`width * height` pixels in the view's format. -/
theorem renderEnter_clears_and_empty_pass_reads_zero (rt : RenderTarget)
    (view : ImageView) (hw : view.w = rt.width) (hh : view.h = rt.height)
    (hf : view.format = .rgba8Unorm) :
    (renderEnter rt).bound = true ∧
    (renderEnter rt).colorBuf = List.replicate (pixelCount rt) clearColor ∧
    (renderEnter rt).depthBuf = List.replicate (pixelCount rt) depthClearValue ∧
    (renderEnter rt).objectIdBuf = List.replicate (pixelCount rt) noObjectSentinel ∧
    (renderEnter rt).triangleIdBuf = List.replicate (pixelCount rt) noObjectSentinel ∧
    (renderExit (renderEnter rt)).bind (fun rt2 => readFrameRgba rt2 view) =
      .ok (List.replicate (pixelCount rt) (0, 0, 0, 0)) := by
  refine ⟨rfl, rfl, rfl, rfl, rfl, ?_⟩
  simp [renderEnter, renderExit, readFrameRgba, viewSizeOk, rgbaFormatOk,
    hw, hh, hf, clearColor, pixelCount, Except.bind]

/-- Claim C4 witness: the empty render pass on the concrete target reads
back as two transparent-black pixels. -/
theorem renderEnter_clears_and_empty_pass_reads_zero_witness :
    (renderEnter rt0).bound = true ∧
    (renderEnter rt0).colorBuf = List.replicate (pixelCount rt0) clearColor ∧
    (renderEnter rt0).depthBuf = List.replicate (pixelCount rt0) depthClearValue ∧
    (renderEnter rt0).objectIdBuf = List.replicate (pixelCount rt0) noObjectSentinel ∧
    (renderEnter rt0).triangleIdBuf = List.replicate (pixelCount rt0) noObjectSentinel ∧
    (renderExit (renderEnter rt0)).bind (fun rt2 => readFrameRgba rt2 ⟨1, 2, .rgba8Unorm⟩) =
      .ok (List.replicate (pixelCount rt0) (0, 0, 0, 0)) :=
  renderEnter_clears_and_empty_pass_reads_zero rt0 ⟨1, 2, .rgba8Unorm⟩ rfl rfl rfl

/-- Claim C5: after a cleared pass, drawing object id `n` (0 < n < 65536)
over a region and reading back with `readFrameObjectId` yields exactly `n`
at every pixel of the region — the widening into the view's integer format
loses no precision — and the no-object sentinel everywhere else. -/
theorem readFrameObjectId_roundtrip (rt : RenderTarget) (n : Nat)
    (region : Nat → Bool) (view : ImageView)
    (hn0 : 0 < n) (hn : n < 65536)
    (hw : view.w = rt.width) (hh : view.h = rt.height)
    (hf : idFormatOk view.format = true) :
    readFrameObjectId (drawObjectId (renderEnter rt) n region) view =
      .ok ((List.range (pixelCount rt)).map fun i =>
        if region i then n else noObjectSentinel) := by
  have hn16 : n < 2 ^ 16 := by norm_num at hn ⊢; exact hn
  have hmod : n % 2 ^ 16 = n := Nat.mod_eq_of_lt hn16
  simp only [readFrameObjectId, drawObjectId, renderEnter, viewSizeOk,
    pixelCount, hw, hh, hf, beq_self_eq_true, Bool.and_self, if_true,
    List.map_map]
  congr 1
  apply List.map_congr_left
  intro i _
  by_cases hr : region i = true
  · simp [hr, Function.comp, Nat.mod_eq_of_lt hn, widenId_of_lt hf hn16]
  · simp at hr
    simp [hr, Function.comp, getD_replicate, widenId, noObjectSentinel]

/-- Claim C5 witness: drawing id 5 at pixel 0 of the concrete target reads
back as `[5, 0]`. -/
theorem readFrameObjectId_roundtrip_witness :
    readFrameObjectId
        (drawObjectId (renderEnter rt0) 5 (fun i => i == 0)) ⟨1, 2, .r32UI⟩ =
      .ok ((List.range (pixelCount rt0)).map fun i =>
        if i == 0 then 5 else noObjectSentinel) :=
  readFrameObjectId_roundtrip rt0 5 (fun i => i == 0) ⟨1, 2, .r32UI⟩
    (by decide) (by decide) rfl rfl (by decide)

/-- Claim C7: every host read operation rejects, synchronously and before
any copy, a view whose dimensions differ from the framebuffer size or
whose pixel format is incompatible with the channel; no data is ever
produced from a mismatched view. -/
theorem hostReads_validate_view (rt : RenderTarget) (view : ImageView) :
    (viewSizeOk rt view = false →
      readFrameRgba rt view = .error .viewSizeMismatch ∧
      readFrameDepth rt view = .error .viewSizeMismatch ∧
      readFrameObjectId rt view = .error .viewSizeMismatch ∧
      readFrameTriangleId rt view = .error .viewSizeMismatch) ∧
    (viewSizeOk rt view = true →
      (rgbaFormatOk view.format = false →
        readFrameRgba rt view = .error .viewFormatMismatch) ∧
      (depthFormatOk view.format = false →
        readFrameDepth rt view = .error .viewFormatMismatch) ∧
      (idFormatOk view.format = false →
        readFrameObjectId rt view = .error .viewFormatMismatch ∧
        readFrameTriangleId rt view = .error .viewFormatMismatch)) := by
  constructor
  · intro h
    refine ⟨?_, ?_, ?_, ?_⟩ <;>
      simp [readFrameRgba, readFrameDepth, readFrameObjectId,
        readFrameTriangleId, h]
  · intro h
    refine ⟨fun hf => ?_, fun hf => ?_, fun hf => ⟨?_, ?_⟩⟩ <;>
      simp [readFrameRgba, readFrameDepth, readFrameObjectId,
        readFrameTriangleId, h, hf]

/-- Claim C7 witness: on the concrete target, a wrong-sized RGBA view and
a multi-channel depth view are both rejected. -/
theorem hostReads_validate_view_witness :
    readFrameRgba rt0 ⟨2, 2, .rgba8Unorm⟩ = .error .viewSizeMismatch ∧
    readFrameDepth rt0 ⟨1, 2, .rg32F⟩ = .error .viewFormatMismatch :=
  ⟨((hostReads_validate_view rt0 ⟨2, 2, .rgba8Unorm⟩).1 (by decide)).1,
   ((hostReads_validate_view rt0 ⟨1, 2, .rg32F⟩).2 (by decide)).2.1 (by decide)⟩

/-- Claim C2: with the device-memory-export capability compiled in, every
device read delivers the same data as the corresponding host read on the
same framebuffer content, modulo the dense-packing layout of the
destination (bytes for RGBA, 32-bit signed integers for the id
channels). -/
theorem deviceReads_match_hostReads (rt : RenderTarget) (hwf : WF rt) :
    Except.ok (readFrameRgbaGPU rt) =
      Except.map rgbaBytes (readFrameRgba rt (rgbaView rt)) ∧
    (rt.hasDepthShader = true →
      readFrameDepthGPU rt = readFrameDepth rt (depthView rt)) ∧
    Except.ok (readFrameObjectIdGPU rt) =
      Except.map (List.map (fun v : Nat => (v : Int)))
        (readFrameObjectId rt (idView rt)) ∧
    readFrameTriangleIdGPU rt =
      Except.map (List.map (fun v : Nat => (v : Int)))
        (readFrameTriangleId rt (idView rt)) := by
  obtain ⟨-, -, -, -, hobj, htri⟩ := hwf
  have hid : idFormatOk PixelFormat.r32UI = true := by decide
  have hmap : ∀ l : List Nat, (∀ v ∈ l, v < 2 ^ 16) →
      l.map toInt32 =
        (l.map (widenId PixelFormat.r32UI)).map (fun v : Nat => (v : Int)) := by
    intro l hl
    rw [List.map_map]
    apply List.map_congr_left
    intro v hv
    simp [Function.comp, toInt32_of_lt (hl v hv), widenId_of_lt hid (hl v hv)]
  refine ⟨?_, ?_, ?_, ?_⟩
  · simp [readFrameRgbaGPU, readFrameRgba, rgbaView, viewSizeOk,
      rgbaFormatOk, Except.map]
  · intro h
    simp [readFrameDepthGPU, readFrameDepth, depthView, viewSizeOk,
      depthFormatOk, h]
  · simp only [readFrameObjectIdGPU, readFrameObjectId, idView, viewSizeOk,
      viewSizeOk, beq_self_eq_true, Bool.and_self, if_true, hid, Except.map]
    rw [hmap rt.objectIdBuf hobj]
  · cases he : rt.triangleIdEnabled with
    | false =>
      simp [readFrameTriangleIdGPU, readFrameTriangleId, idView, viewSizeOk,
        hid, he, Except.map]
    | true =>
      simp only [readFrameTriangleIdGPU, readFrameTriangleId, idView,
        viewSizeOk, beq_self_eq_true, Bool.and_self, if_true, hid, he,
        Except.map]
      rw [hmap rt.triangleIdBuf htri]

/-- Claim C2 witness: the device and host reads agree on the concrete
target. -/
theorem deviceReads_match_hostReads_witness :
    Except.ok (readFrameRgbaGPU rt0) =
      Except.map rgbaBytes (readFrameRgba rt0 (rgbaView rt0)) ∧
    (rt0.hasDepthShader = true →
      readFrameDepthGPU rt0 = readFrameDepth rt0 (depthView rt0)) ∧
    Except.ok (readFrameObjectIdGPU rt0) =
      Except.map (List.map (fun v : Nat => (v : Int)))
        (readFrameObjectId rt0 (idView rt0)) ∧
    readFrameTriangleIdGPU rt0 =
      Except.map (List.map (fun v : Nat => (v : Int)))
        (readFrameTriangleId rt0 (idView rt0)) :=
  deviceReads_match_hostReads rt0 (by decide)

/-- Claim C9: each device read fills exactly the byte length implied by
the framebuffer size and the channel's element size — `width * height * 4`
bytes for RGBA (four 8-bit channels per pixel), `width * height` 32-bit
elements for depth and the id channels — and never more, so a caller
buffer of that size is sufficient. -/
theorem deviceReads_exact_length (rt : RenderTarget) (hwf : WF rt) :
    (readFrameRgbaGPU rt).length = rt.width * rt.height * 4 ∧
    (∀ out, readFrameDepthGPU rt = .ok out →
      out.length = rt.width * rt.height) ∧
    (readFrameObjectIdGPU rt).length = rt.width * rt.height ∧
    (∀ out, readFrameTriangleIdGPU rt = .ok out →
      out.length = rt.width * rt.height) := by
  obtain ⟨hc, hd, ho, ht, -, -⟩ := hwf
  refine ⟨?_, ?_, ?_, ?_⟩
  · rw [readFrameRgbaGPU, rgbaBytes_length, hc, pixelCount]
  · intro out hout
    cases h : rt.hasDepthShader with
    | false => simp [readFrameDepthGPU, h] at hout
    | true =>
      simp only [readFrameDepthGPU, h, if_true, Except.ok.injEq] at hout
      subst hout
      simpa [copyScratchOut, gpuUnprojectPass, pixelCount] using hd
  · simp only [readFrameObjectIdGPU, List.length_map]
    exact ho
  · intro out hout
    cases he : rt.triangleIdEnabled with
    | false => simp [readFrameTriangleIdGPU, he] at hout
    | true =>
      simp only [readFrameTriangleIdGPU, he, if_true, Except.ok.injEq] at hout
      subst hout
      simp only [List.length_map]
      exact ht

/-- Claim C9 witness: the device reads on the concrete 1x2 target have
exactly 8 bytes (RGBA) and 2 elements (ids). -/
theorem deviceReads_exact_length_witness :
    (readFrameRgbaGPU rt0).length = rt0.width * rt0.height * 4 ∧
    (readFrameObjectIdGPU rt0).length = rt0.width * rt0.height :=
  ⟨(deviceReads_exact_length rt0 (by decide)).1,
   (deviceReads_exact_length rt0 (by decide)).2.2.1⟩

/-- Claim C10: the device object-id read (and, when the feature is
enabled, the device triangle-id read) delivers one 32-bit signed integer
per pixel — `width * height` elements, hence
`width * height * sizeof(int32)` bytes — widening each 16-bit identifier
without changing its value, and every delivered value lies inside the
int32 range. -/
theorem deviceIdReads_widen_lossless (rt : RenderTarget) (hwf : WF rt) :
    readFrameObjectIdGPU rt = rt.objectIdBuf.map (fun v : Nat => (v : Int)) ∧
    (readFrameObjectIdGPU rt).length = rt.width * rt.height ∧
    (∀ e ∈ readFrameObjectIdGPU rt, 0 ≤ e ∧ e < 2 ^ 31) ∧
    (rt.triangleIdEnabled = true →
      readFrameTriangleIdGPU rt =
        .ok (rt.triangleIdBuf.map (fun v : Nat => (v : Int)))) := by
  obtain ⟨-, -, ho, -, hobj, htri⟩ := hwf
  have hmap : rt.objectIdBuf.map toInt32 =
      rt.objectIdBuf.map (fun v : Nat => (v : Int)) :=
    List.map_congr_left fun v hv => toInt32_of_lt (hobj v hv)
  refine ⟨?_, ?_, ?_, ?_⟩
  · rw [readFrameObjectIdGPU, hmap]
  · simp only [readFrameObjectIdGPU, List.length_map]
    exact ho
  · intro e he
    rw [readFrameObjectIdGPU, hmap] at he
    obtain ⟨v, hv, rfl⟩ := List.mem_map.mp he
    have : v < 2 ^ 31 :=
      lt_of_lt_of_le (hobj v hv) (by norm_num)
    constructor
    · exact Int.ofNat_nonneg v
    · exact_mod_cast this
  · intro he
    rw [readFrameTriangleIdGPU, if_pos he]
    rw [List.map_congr_left fun v hv => toInt32_of_lt (htri v hv)]

/-- Claim C10 witness: the device object-id read of the concrete target is
`[7, 0]`, two int32 values. -/
theorem deviceIdReads_widen_lossless_witness :
    readFrameObjectIdGPU rt0 = rt0.objectIdBuf.map (fun v : Nat => (v : Int)) ∧
    (readFrameObjectIdGPU rt0).length = rt0.width * rt0.height :=
  ⟨(deviceIdReads_widen_lossless rt0 (by decide)).1,
   (deviceIdReads_widen_lossless rt0 (by decide)).2.1⟩

end HabitatGfx
